import Mathlib

/-!
# Supabase single-page authentication client: view controllers

A shallow embedding of the five view controllers under `frontend/src/pages`
(`Home.jsx`, `Auth.jsx`, `ResetPasswordRequest.jsx`, `ChangePassword.jsx`,
`Profile.jsx`).

Modelling conventions.

* A JavaScript string is the list of its UTF-16 code units, so that `.length`
  is `List.length` and `===` on strings is equality of lists.
* `null` / `undefined` are `none`; JavaScript truthiness of a nullable string is
  `truthy`, of a nullable object `Option.isSome`.
* Every call a component makes, in source order, is an `Op`: the `useState`
  setters, the identity-service requests, `navigate`, `setTimeout`,
  `history.replaceState`.  A handler is the list of `Op`s it performs; the
  component state after it is the fold of the setter calls (`State.run`).
* An `await` splits a handler into segments.  The answer of the awaited request
  is a parameter: `Except Thrown α`, `.ok` for a resolved promise, `.error` for a
  rejected one.
-/

namespace SupabaseAuth

/-! ## JavaScript values -/

/-- A UTF-16 code unit. -/
abbrev CodeUnit := Fin 65536

/-- A JavaScript string: its UTF-16 code units. -/
abbrev JsString := List CodeUnit

/-- The UTF-16 encoding of one Unicode scalar value (a surrogate pair above the BMP). -/
def codeUnits (c : Char) : List CodeUnit :=
  if h : c.toNat < 65536 then [⟨c.toNat, h⟩]
  else
    [⟨(55296 + (c.toNat - 65536) / 1024) % 65536, Nat.mod_lt _ (by decide)⟩,
     ⟨(56320 + (c.toNat - 65536) % 1024) % 65536, Nat.mod_lt _ (by decide)⟩]

/-- A string literal of the source as a JavaScript string. -/
def js (s : String) : JsString := (s.toList.map codeUnits).flatten

/-- JavaScript truthiness of a value that is `null`/`undefined` or a string. -/
def truthy : Option JsString → Bool
  | some (_ :: _) => true
  | _ => false

/-- The `user` object of a session: the fields the views read. -/
structure User where
  id : JsString
  email : JsString
  created_at : JsString
  last_sign_in_at : JsString
deriving DecidableEq, Repr

/-- A session object as returned by the identity service. -/
structure Session where
  user : User
  access_token : JsString
deriving DecidableEq, Repr

/-- The `error` member of a gateway result: an object with a `message`. -/
structure AuthError where
  message : JsString
deriving DecidableEq, Repr

/-- A value thrown by an awaited call: `null`/`undefined`, or a value whose
`message` property is `undefined` or a string. -/
inductive Thrown where
  | nullish
  | value (message : Option JsString)
deriving DecidableEq, Repr

/-- A request to the identity service (`supabase.auth.*`). -/
inductive Request where
  | getSession
  | onAuthStateChange
  | unsubscribe
  | signUp (email password emailRedirectTo : JsString)
  | signInWithPassword (email password : JsString)
  | signOut
  | resetPasswordForEmail (email redirectTo : JsString)
  | verifyOtp (token_hash type : JsString)
  | updateUser (password : JsString)
deriving DecidableEq, Repr

/-- One call made by a component. -/
inductive Op where
  | preventDefault
  | setIsSignUp (b : Bool)
  | setEmail (v : JsString)
  | setPassword (v : JsString)
  | setConfirmPassword (v : JsString)
  | setLoading (b : Bool)
  | setError (v : Option JsString)
  | setMessage (v : Option JsString)
  | setSession (v : Option Session)
  | setVerifying (b : Bool)
  | call (r : Request)
  | navigate (path : JsString)
  | setTimeoutNavigate (ms : Nat) (path : JsString)
  | replaceState (url : JsString)
deriving DecidableEq, Repr

/-- Is the call a request to the identity service? -/
def Op.isCall : Op → Bool
  | .call _ => true
  | _ => false

/-- Is the call an `updateUser` request? -/
def Op.isUpdateUser : Op → Bool
  | .call (.updateUser _) => true
  | _ => false

/-- Is the call a navigation (immediate or scheduled)? -/
def Op.isNavigate : Op → Bool
  | .navigate _ => true
  | .setTimeoutNavigate _ _ => true
  | _ => false

/-- The `catch (err) { setError(err.message || "An error occurred"); }` block
shared by the three submission handlers.  Reading `.message` of `null` or
`undefined` throws, so no setter is called. -/
def catchBlock : Thrown → List Op
  | .nullish => []
  | .value m => [.setError (some (if truthy m then m.getD [] else js "An error occurred"))]

/-- The four calls that open each of the three submission handlers:
`e.preventDefault(); setLoading(true); setError(null); setMessage(null);`. -/
def resetOps : List Op := [.preventDefault, .setLoading true, .setError none, .setMessage none]

/-! ## `Auth.jsx` -/

namespace Auth

/-- The `useState` cells of `Auth`. -/
structure State where
  isSignUp : Bool := false
  email : JsString := []
  password : JsString := []
  loading : Bool := false
  error : Option JsString := none
  message : Option JsString := none
  session : Option Session := none
deriving DecidableEq, Repr

/-- The state of a freshly mounted `Auth`. -/
def init : State := {}

/-- The effect of one call on the component state. -/
def State.apply (s : State) : Op → State
  | .setIsSignUp b => { s with isSignUp := b }
  | .setEmail v => { s with email := v }
  | .setPassword v => { s with password := v }
  | .setLoading b => { s with loading := b }
  | .setError v => { s with error := v }
  | .setMessage v => { s with message := v }
  | .setSession v => { s with session := v }
  | _ => s

/-- The state after a list of calls. -/
def State.run (s : State) (ops : List Op) : State := ops.foldl State.apply s

/-- The `getSession().then(...)` callback of the effect (lines 16-21). -/
def onGetSession (session : Option Session) : List Op :=
  [.setSession session] ++ (if session.isSome then [.navigate (js "/profile")] else [])

/-- The `onAuthStateChange` listener of the effect (lines 25-30). -/
def onAuthStateChange (session : Option Session) : List Op :=
  [.setSession session] ++ (if session.isSome then [.navigate (js "/profile")] else [])

/-- The handler `handleSubmit` up to its `await` (lines 36-50 and 59-62). -/
def handleSubmit_begin (origin : JsString) (s : State) : List Op :=
  [.preventDefault, .setLoading true, .setError none, .setMessage none] ++
    (if s.isSignUp then [.call (.signUp s.email s.password (origin ++ js "/auth"))]
     else [.call (.signInWithPassword s.email s.password)])

/-- The handler `handleSubmit` after its `await` (lines 52-56, 64-74); `isSignUp`
is the value captured by the closure. -/
def handleSubmit_resume (isSignUp : Bool) (reply : Except Thrown (Option AuthError)) : List Op :=
  (match reply with
    | .ok (some error) => [.setError (some error.message)]
    | .ok none =>
      if isSignUp then [.setMessage (some (js "Check your email for the confirmation link!"))]
      else [.navigate (js "/profile")]
    | .error err => catchBlock err) ++ [.setLoading false]

/-- The whole of `handleSubmit`, given the gateway's answer. -/
def handleSubmit (origin : JsString) (s : State) (reply : Except Thrown (Option AuthError)) :
    List Op :=
  handleSubmit_begin origin s ++ handleSubmit_resume s.isSignUp reply

/-- The `onClick` of the "Sign In" / "Sign Up" mode buttons (lines 105-109, 119-123). -/
def clickMode (signUp : Bool) : List Op :=
  [.setIsSignUp signUp, .setError none, .setMessage none]

/-- The handler `handleLogout` (lines 77-81). -/
def handleLogout : List Op :=
  [.call .signOut, .setSession none, .navigate (js "/")]

end Auth

/-! ## `ResetPasswordRequest.jsx` -/

namespace ResetPasswordRequest

/-- The `useState` cells of `ResetPasswordRequest`. -/
structure State where
  email : JsString := []
  loading : Bool := false
  error : Option JsString := none
  message : Option JsString := none
deriving DecidableEq, Repr

/-- The state of a freshly mounted `ResetPasswordRequest`. -/
def init : State := {}

/-- The effect of one call on the component state. -/
def State.apply (s : State) : Op → State
  | .setEmail v => { s with email := v }
  | .setLoading b => { s with loading := b }
  | .setError v => { s with error := v }
  | .setMessage v => { s with message := v }
  | _ => s

/-- The state after a list of calls. -/
def State.run (s : State) (ops : List Op) : State := ops.foldl State.apply s

/-- The handler `handleSubmit` up to its `await` (lines 12-20). -/
def handleSubmit_begin (origin : JsString) (s : State) : List Op :=
  [.preventDefault, .setLoading true, .setError none, .setMessage none,
   .call (.resetPasswordForEmail s.email (origin ++ js "/update-password"))]

/-- The handler `handleSubmit` after its `await` (lines 22-31). -/
def handleSubmit_resume (reply : Except Thrown (Option AuthError)) : List Op :=
  (match reply with
    | .ok (some error) => [.setError (some error.message)]
    | .ok none => [.setMessage (some (js "Check your email for the password reset link!"))]
    | .error err => catchBlock err) ++ [.setLoading false]

/-- The whole of `handleSubmit`, given the gateway's answer. -/
def handleSubmit (origin : JsString) (s : State) (reply : Except Thrown (Option AuthError)) :
    List Op :=
  handleSubmit_begin origin s ++ handleSubmit_resume reply

end ResetPasswordRequest

/-! ## `ChangePassword.jsx` -/

namespace ChangePassword

/-- The query parameters the view reads with `searchParams.get`. -/
structure SearchParams where
  token_hash : Option JsString := none
  type : Option JsString := none
deriving DecidableEq, Repr

/-- The test of line 21, `token_hash && type === "recovery"`: the URL carries a
recovery token. -/
def SearchParams.hasRecoveryToken (q : SearchParams) : Bool :=
  truthy q.token_hash && decide (q.type = some (js "recovery"))

/-- The `useState` cells of `ChangePassword`. -/
structure State where
  password : JsString := []
  confirmPassword : JsString := []
  loading : Bool := false
  error : Option JsString := none
  message : Option JsString := none
  session : Option Session := none
  verifying : Bool := false
deriving DecidableEq, Repr

/-- The state of a freshly mounted `ChangePassword`. -/
def init : State := {}

/-- The effect of one call on the component state. -/
def State.apply (s : State) : Op → State
  | .setPassword v => { s with password := v }
  | .setConfirmPassword v => { s with confirmPassword := v }
  | .setLoading b => { s with loading := b }
  | .setError v => { s with error := v }
  | .setMessage v => { s with message := v }
  | .setSession v => { s with session := v }
  | .setVerifying b => { s with verifying := b }
  | _ => s

/-- The state after a list of calls. -/
def State.run (s : State) (ops : List Op) : State := ops.foldl State.apply s

/-- The synchronous body of the effect (lines 16-53): start the verification of a
recovery token when the URL carries one, fetch the session, subscribe. -/
def useEffect (q : SearchParams) : List Op :=
  (if q.hasRecoveryToken then
      [.setVerifying true, .call (.verifyOtp (q.token_hash.getD []) (js "recovery"))]
    else []) ++
  [.call .getSession, .call .onAuthStateChange]

/-- The `verifyOtp(...).then(...)` callback (lines 29-37).  The promise has no
rejection handler: when it rejects nothing runs. -/
def onVerifyOtp (reply : Except Thrown (Option AuthError)) : List Op :=
  match reply with
  | .ok (some error) => [.setError (some error.message), .setVerifying false]
  | .ok none => [.replaceState (js "/update-password"), .setVerifying false]
  | .error _ => []

/-- The `getSession().then(...)` callback of the effect (lines 41-47). -/
def onGetSession (q : SearchParams) (session : Option Session) : List Op :=
  [.setSession session] ++
    (if !session.isSome && !truthy q.token_hash then [.navigate (js "/reset-password")] else [])

/-- The `onAuthStateChange` listener of the effect (lines 51-53). -/
def onAuthStateChange (session : Option Session) : List Op :=
  [.setSession session]

/-- The handler `handleSubmit` up to its first `await` (lines 59-78).  The flag
says whether the handler is suspended on `getSession` (otherwise it returned). -/
def handleSubmit_begin (s : State) : List Op × Bool :=
  let reset : List Op := [.preventDefault, .setLoading true, .setError none, .setMessage none]
  if s.password ≠ s.confirmPassword then
    (reset ++ [.setError (some (js "Passwords do not match")), .setLoading false], false)
  else if s.password.length < 6 then
    (reset ++ [.setError (some (js "Password must be at least 6 characters")),
      .setLoading false], false)
  else
    (reset ++ [.call .getSession], true)

/-- The handler `handleSubmit` between its two `await`s (lines 78-88); `password`
is the value captured by the closure.  The flag says whether the handler is
suspended on `updateUser`. -/
def handleSubmit_afterGetSession (password : JsString)
    (reply : Except Thrown (Option Session)) : List Op × Bool :=
  match reply with
  | .ok none =>
    ([.setError (some (js "Please click the link from your email first")),
      .setLoading false, .setLoading false], false)
  | .ok (some _) => ([.call (.updateUser password)], true)
  | .error err => (catchBlock err ++ [.setLoading false], false)

/-- The handler `handleSubmit` after its second `await` (lines 90-102). -/
def handleSubmit_afterUpdateUser (reply : Except Thrown (Option AuthError)) : List Op :=
  (match reply with
    | .ok (some error) => [.setError (some error.message)]
    | .ok none =>
      [.setMessage (some (js "Password updated successfully! Redirecting...")),
       .setTimeoutNavigate 2000 (js "/profile")]
    | .error err => catchBlock err) ++ [.setLoading false]

/-- The whole of `handleSubmit`, given the gateway's answers to `getSession` and
to `updateUser` (an answer to a request that is not made is not read). -/
def handleSubmit (s : State) (sessionReply : Except Thrown (Option Session))
    (updateReply : Except Thrown (Option AuthError)) : List Op :=
  match handleSubmit_begin s with
  | (ops, false) => ops
  | (ops, true) =>
    match handleSubmit_afterGetSession s.password sessionReply with
    | (ops2, false) => ops ++ ops2
    | (ops2, true) => ops ++ ops2 ++ handleSubmit_afterUpdateUser updateReply

/-- What the component renders (lines 105-185). -/
inductive Rendered where
  | verifyingScreen
  | nothing
  | form (error message : Option JsString) (loading : Bool)
deriving DecidableEq, Repr

/-- The render function (lines 105-185). -/
def render (q : SearchParams) (s : State) : Rendered :=
  if s.verifying then .verifyingScreen
  else if !s.session.isSome && !truthy q.token_hash then .nothing
  else .form s.error s.message s.loading

end ChangePassword

/-! ## `Profile.jsx` -/

namespace Profile

/-- The `useState` cells of `Profile`. -/
structure State where
  session : Option Session := none
  loading : Bool := true
deriving DecidableEq, Repr

/-- The state of a freshly mounted `Profile`. -/
def init : State := {}

/-- The effect of one call on the component state. -/
def State.apply (s : State) : Op → State
  | .setSession v => { s with session := v }
  | .setLoading b => { s with loading := b }
  | _ => s

/-- The state after a list of calls. -/
def State.run (s : State) (ops : List Op) : State := ops.foldl State.apply s

/-- The `getSession().then(...)` callback of the effect (lines 11-17). -/
def onGetSession (session : Option Session) : List Op :=
  [.setSession session, .setLoading false] ++
    (if !session.isSome then [.navigate (js "/")] else [])

/-- The `onAuthStateChange` listener of the effect (lines 21-26). -/
def onAuthStateChange (session : Option Session) : List Op :=
  [.setSession session] ++ (if !session.isSome then [.navigate (js "/")] else [])

/-- The handler `handleLogout` (lines 31-34). -/
def handleLogout : List Op :=
  [.call .signOut, .navigate (js "/")]

/-- What the component renders (lines 36-71).  The two dates are shown through
`toLocaleString`; the model keeps the field they are computed from. -/
inductive Rendered where
  | loadingScreen
  | nothing
  | userInformation (email id created_at last_sign_in_at : JsString)
deriving DecidableEq, Repr

/-- The render function (lines 36-71). -/
def render (s : State) : Rendered :=
  if s.loading then .loadingScreen
  else
    match s.session with
    | none => .nothing
    | some session =>
      .userInformation session.user.email session.user.id session.user.created_at
        session.user.last_sign_in_at

/-- Does the rendered output show user information? -/
def Rendered.showsUser : Rendered → Bool
  | .userInformation _ _ _ _ => true
  | _ => false

/-- An event delivered to a mounted `Profile`. -/
inductive Event where
  | sessionFetched (session : Option Session)
  | authStateChanged (session : Option Session)
  | logoutClicked
deriving DecidableEq, Repr

/-- The calls the component makes on an event. -/
def Event.ops : Event → List Op
  | .sessionFetched session => onGetSession session
  | .authStateChanged session => onAuthStateChange session
  | .logoutClicked => handleLogout

/-- The state after one event. -/
def step (s : State) (e : Event) : State := s.run e.ops

/-- The state after a sequence of events, oldest first. -/
def steps (s : State) (es : List Event) : State := es.foldl step s

end Profile

/-! ## `Home.jsx` -/

namespace Home

/-- The `useState` cell of `Home`. -/
structure State where
  session : Option Session := none
deriving DecidableEq, Repr

/-- The state of a freshly mounted `Home`. -/
def init : State := {}

/-- The `getSession().then(...)` callback of the effect (lines 10-12). -/
def onGetSession (session : Option Session) : List Op :=
  [.setSession session]

/-- The `onAuthStateChange` listener of the effect (lines 16-18). -/
def onAuthStateChange (session : Option Session) : List Op :=
  [.setSession session]

end Home

/-! ## Session subscription life cycle of a view -/

/-- The four views whose effect fetches the session and subscribes to its changes. -/
inductive View where
  | home
  | auth
  | profile
  | changePassword (q : ChangePassword.SearchParams)
deriving DecidableEq, Repr

/-- The `getSession().then(...)` callback of a view. -/
def View.onGetSession : View → Option Session → List Op
  | .home => Home.onGetSession
  | .auth => Auth.onGetSession
  | .profile => Profile.onGetSession
  | .changePassword q => ChangePassword.onGetSession q

/-- The `onAuthStateChange` listener of a view. -/
def View.onAuthStateChange : View → Option Session → List Op
  | .home => Home.onAuthStateChange
  | .auth => Auth.onAuthStateChange
  | .profile => Profile.onAuthStateChange
  | .changePassword _ => ChangePassword.onAuthStateChange

/-- One run of a view's effect: is its `getSession()` promise still unsettled, and
is its `onAuthStateChange` listener still registered. -/
structure Subscription where
  fetchPending : Bool := true
  subscribed : Bool := true
deriving DecidableEq, Repr

/-- What can happen to one run of a view's effect. -/
inductive LifeEvent where
  | fetchResolved (session : Option Session)
  | sessionChanged (session : Option Session)
  | unmount
deriving DecidableEq, Repr

/-- The calls a view makes on a life-cycle event.  The cleanup of the effect is
`() => subscription.unsubscribe()` and nothing else.  Environment: the `then`
callback of a promise runs when the promise resolves, and no view guards it with a
mounted flag; the identity-service client invokes a listener only while its
subscription is registered (specification, section 4.1). -/
def deliver (v : View) (sub : Subscription) : LifeEvent → Subscription × List Op
  | .fetchResolved session =>
    if sub.fetchPending then ({ sub with fetchPending := false }, v.onGetSession session)
    else (sub, [])
  | .sessionChanged session =>
    if sub.subscribed then (sub, v.onAuthStateChange session) else (sub, [])
  | .unmount => ({ sub with subscribed := false }, [.call .unsubscribe])

/-- The subscription after a sequence of life-cycle events, oldest first. -/
def deliverAll (v : View) (sub : Subscription) (es : List LifeEvent) : Subscription :=
  es.foldl (fun acc e => (deliver v acc e).1) sub

/-! ## Notification slots under interleaved events -/

namespace Auth

/-- A mounted `Auth` together with the `handleSubmit` calls suspended on their
`await`: each holds the `isSignUp` its closure captured. -/
structure Sys where
  state : State := init
  inflight : List Bool := []
deriving DecidableEq, Repr

/-- An event on a mounted `Auth`. -/
inductive Event where
  | emailEdited (v : JsString)
  | passwordEdited (v : JsString)
  | modeClicked (signUp : Bool)
  | submitted
  | gatewayReplied (i : Nat) (reply : Except Thrown (Option AuthError))
  | sessionFetched (session : Option Session)
  | authStateChanged (session : Option Session)
  | logoutClicked

/-- One event.  The submit button carries `disabled={loading}` (line 176), so a
submission happens only while `loading` is false; a reply settles a suspended call. -/
def step (origin : JsString) (sys : Sys) : Event → Sys
  | .emailEdited v => { sys with state := sys.state.run [.setEmail v] }
  | .passwordEdited v => { sys with state := sys.state.run [.setPassword v] }
  | .modeClicked b => { sys with state := sys.state.run (clickMode b) }
  | .submitted =>
    if sys.state.loading then sys
    else
      { state := sys.state.run (handleSubmit_begin origin sys.state),
        inflight := sys.inflight ++ [sys.state.isSignUp] }
  | .gatewayReplied i reply =>
    match sys.inflight.get? i with
    | none => sys
    | some isSignUp =>
      { state := sys.state.run (handleSubmit_resume isSignUp reply),
        inflight := sys.inflight.eraseIdx i }
  | .sessionFetched session => { sys with state := sys.state.run (onGetSession session) }
  | .authStateChanged session =>
    { sys with state := sys.state.run (onAuthStateChange session) }
  | .logoutClicked => { sys with state := sys.state.run handleLogout }

/-- The system after a sequence of events, oldest first. -/
def steps (origin : JsString) (sys : Sys) (es : List Event) : Sys :=
  es.foldl (step origin) sys

end Auth

namespace ResetPasswordRequest

/-- A mounted `ResetPasswordRequest` together with the number of `handleSubmit`
calls suspended on their `await`. -/
structure Sys where
  state : State := init
  inflight : Nat := 0
deriving DecidableEq, Repr

/-- An event on a mounted `ResetPasswordRequest`. -/
inductive Event where
  | emailEdited (v : JsString)
  | submitted
  | gatewayReplied (reply : Except Thrown (Option AuthError))

/-- One event.  The submit button carries `disabled={loading}` (line 66), so a
submission happens only while `loading` is false; a reply settles a suspended call. -/
def step (origin : JsString) (sys : Sys) : Event → Sys
  | .emailEdited v => { sys with state := sys.state.run [.setEmail v] }
  | .submitted =>
    if sys.state.loading then sys
    else
      { state := sys.state.run (handleSubmit_begin origin sys.state),
        inflight := sys.inflight + 1 }
  | .gatewayReplied reply =>
    if sys.inflight = 0 then sys
    else
      { state := sys.state.run (handleSubmit_resume reply),
        inflight := sys.inflight - 1 }

/-- The system after a sequence of events, oldest first. -/
def steps (origin : JsString) (sys : Sys) (es : List Event) : Sys :=
  es.foldl (step origin) sys

end ResetPasswordRequest

namespace ChangePassword

/-- A `handleSubmit` call suspended on an `await`. -/
inductive Pending where
  | getSession (password : JsString)
  | updateUser
deriving DecidableEq, Repr

/-- A mounted `ChangePassword` together with its suspended `handleSubmit` calls
and whether its `verifyOtp` promise is still unsettled. -/
structure Sys where
  state : State
  inflight : List Pending
  verifyPending : Bool
deriving DecidableEq, Repr

/-- The system once the component is mounted and its effect has run. -/
def mount (q : SearchParams) : Sys :=
  { state := init.run (useEffect q), inflight := [], verifyPending := q.hasRecoveryToken }

/-- An event on a mounted `ChangePassword`. -/
inductive Event where
  | passwordEdited (v : JsString)
  | confirmEdited (v : JsString)
  | submitted
  | sessionReplied (i : Nat) (reply : Except Thrown (Option Session))
  | updateReplied (i : Nat) (reply : Except Thrown (Option AuthError))
  | verifyReplied (reply : Except Thrown (Option AuthError))
  | sessionFetched (session : Option Session)
  | authStateChanged (session : Option Session)

/-- Can the form be submitted: it is on screen and its button, which carries
`disabled={loading}` (line 166), is enabled. -/
def canSubmit (q : SearchParams) (s : State) : Bool :=
  match render q s with
  | .form _ _ loading => !loading
  | _ => false

/-- One event; a reply settles the suspended call or the pending verification it
answers. -/
def step (q : SearchParams) (sys : Sys) : Event → Sys
  | .passwordEdited v => { sys with state := sys.state.run [.setPassword v] }
  | .confirmEdited v => { sys with state := sys.state.run [.setConfirmPassword v] }
  | .submitted =>
    if canSubmit q sys.state then
      match handleSubmit_begin sys.state with
      | (ops, false) => { sys with state := sys.state.run ops }
      | (ops, true) =>
        { sys with state := sys.state.run ops,
                   inflight := sys.inflight ++ [.getSession sys.state.password] }
    else sys
  | .sessionReplied i reply =>
    match sys.inflight.get? i with
    | some (.getSession password) =>
      match handleSubmit_afterGetSession password reply with
      | (ops, false) =>
        { sys with state := sys.state.run ops, inflight := sys.inflight.eraseIdx i }
      | (ops, true) =>
        { sys with state := sys.state.run ops, inflight := sys.inflight.set i .updateUser }
    | _ => sys
  | .updateReplied i reply =>
    match sys.inflight.get? i with
    | some .updateUser =>
      { sys with state := sys.state.run (handleSubmit_afterUpdateUser reply),
                 inflight := sys.inflight.eraseIdx i }
    | _ => sys
  | .verifyReplied reply =>
    if sys.verifyPending then
      { sys with state := sys.state.run (onVerifyOtp reply), verifyPending := false }
    else sys
  | .sessionFetched session =>
    { sys with state := sys.state.run (onGetSession q session) }
  | .authStateChanged session =>
    { sys with state := sys.state.run (onAuthStateChange session) }

/-- The system after a sequence of events, oldest first. -/
def steps (q : SearchParams) (sys : Sys) (es : List Event) : Sys :=
  es.foldl (step q) sys

end ChangePassword

/-! ## Invariants of the notification slots -/

/-- The invariant of a mounted `Auth`: either no submission is suspended and at most
one slot is filled, or exactly one is suspended, `loading` is set and both slots are
`null`. -/
def Auth.Inv (sys : Auth.Sys) : Prop :=
  (sys.inflight = [] ∧ (sys.state.error = none ∨ sys.state.message = none)) ∨
  (∃ b, sys.inflight = [b] ∧ sys.state.loading = true ∧
    sys.state.error = none ∧ sys.state.message = none)

/-- The invariant of a mounted `ResetPasswordRequest`: either no submission is
suspended and at most one slot is filled, or exactly one is suspended, `loading` is
set and both slots are `null`. -/
def ResetPasswordRequest.Inv (sys : ResetPasswordRequest.Sys) : Prop :=
  (sys.inflight = 0 ∧ (sys.state.error = none ∨ sys.state.message = none)) ∨
  (sys.inflight = 1 ∧ sys.state.loading = true ∧
    sys.state.error = none ∧ sys.state.message = none)

/-- The invariant of a mounted `ChangePassword`: while the recovery token is being
verified the verifying screen is up, nothing is suspended and both slots are `null`;
and either no submission is suspended and at most one slot is filled, or exactly one
is suspended, `loading` is set and both slots are `null`. -/
def ChangePassword.Inv (sys : ChangePassword.Sys) : Prop :=
  (sys.verifyPending = true →
    sys.state.verifying = true ∧ sys.inflight = [] ∧
      sys.state.error = none ∧ sys.state.message = none) ∧
  ((sys.inflight = [] ∧ (sys.state.error = none ∨ sys.state.message = none)) ∨
    (∃ p, sys.inflight = [p] ∧ sys.state.loading = true ∧
      sys.state.error = none ∧ sys.state.message = none))

/-! ## Submission handlers -/

section Handlers

namespace ChangePassword

theorem handleSubmit_begin_mismatch (s : State) (h : s.password ≠ s.confirmPassword) :
    handleSubmit_begin s
      = (resetOps ++ [.setError (some (js "Passwords do not match")), .setLoading false],
          false) := by
  simp [handleSubmit_begin, resetOps, h]

theorem handleSubmit_begin_short (s : State) (h1 : s.password = s.confirmPassword)
    (h2 : s.password.length < 6) :
    handleSubmit_begin s
      = (resetOps ++ [.setError (some (js "Password must be at least 6 characters")),
          .setLoading false], false) := by
  unfold handleSubmit_begin
  rw [if_neg (not_not.mpr h1), if_pos h2]
  rfl

theorem handleSubmit_begin_valid (s : State) (h1 : s.password = s.confirmPassword)
    (h2 : 6 ≤ s.password.length) :
    handleSubmit_begin s = (resetOps ++ [.call .getSession], true) := by
  unfold handleSubmit_begin
  rw [if_neg (not_not.mpr h1), if_neg (Nat.not_lt.mpr h2)]
  rfl

end ChangePassword

section

open ChangePassword

/-- C1: local validation of the ChangePassword form.  For every pair of form
fields: when `password` differs from `confirmPassword`, `handleSubmit` ends with the
error "Passwords do not match"; otherwise, when `password.length` is below 6, with
the error "Password must be at least 6 characters"; in both cases the message slot is
`null`, `loading` is false and no request (neither `getSession` nor `updateUser`) is
made.  When the two are equal and `password.length` is at least 6, `getSession` is
requested, and when it answers with a session the one `updateUser` request carries
exactly `password`.  ("Characters" are the units `.length` counts: UTF-16 code
units.) -/
theorem c1_changePassword_local_validation (s : State)
    (sessionReply : Except Thrown (Option Session))
    (updateReply : Except Thrown (Option AuthError)) (session : Session) :
    (s.password ≠ s.confirmPassword →
      (s.run (handleSubmit s sessionReply updateReply)).error
          = some (js "Passwords do not match") ∧
        (s.run (handleSubmit s sessionReply updateReply)).message = none ∧
        (s.run (handleSubmit s sessionReply updateReply)).loading = false ∧
        (handleSubmit s sessionReply updateReply).filter Op.isCall = []) ∧
    (s.password = s.confirmPassword → s.password.length < 6 →
      (s.run (handleSubmit s sessionReply updateReply)).error
          = some (js "Password must be at least 6 characters") ∧
        (s.run (handleSubmit s sessionReply updateReply)).message = none ∧
        (s.run (handleSubmit s sessionReply updateReply)).loading = false ∧
        (handleSubmit s sessionReply updateReply).filter Op.isCall = []) ∧
    (s.password = s.confirmPassword → 6 ≤ s.password.length →
      Op.call .getSession ∈ handleSubmit s sessionReply updateReply ∧
        (handleSubmit s (.ok (some session)) updateReply).filter Op.isCall
          = [.call .getSession, .call (.updateUser s.password)]) := by
  refine ⟨fun h => ?_, fun h1 h2 => ?_, fun h1 h2 => ?_⟩
  · simp [handleSubmit, handleSubmit_begin_mismatch s h, resetOps, State.run, State.apply,
      Op.isCall]
  · simp [handleSubmit, handleSubmit_begin_short s h1 h2, resetOps, State.run, State.apply,
      Op.isCall]
  · constructor
    · cases sessionReply with
      | error err =>
        simp [handleSubmit, handleSubmit_begin_valid s h1 h2, resetOps,
          handleSubmit_afterGetSession]
      | ok r =>
        cases r <;>
          simp [handleSubmit, handleSubmit_begin_valid s h1 h2, resetOps,
            handleSubmit_afterGetSession]
    · cases updateReply with
      | error err =>
        cases err <;>
          simp [handleSubmit, handleSubmit_begin_valid s h1 h2, resetOps,
            handleSubmit_afterGetSession, handleSubmit_afterUpdateUser, catchBlock, Op.isCall]
      | ok r =>
        cases r <;>
          simp [handleSubmit, handleSubmit_begin_valid s h1 h2, resetOps,
            handleSubmit_afterGetSession, handleSubmit_afterUpdateUser, Op.isCall]

/-- Remark on C1: the length the handler compares with 6 is the number of UTF-16
code units.  A password of three characters outside the Basic Multilingual Plane
has `length` 6 and passes the local validation. -/
theorem astral_password_passes_length_check :
    (js "😀😀😀").length = 6 ∧
      handleSubmit_begin { password := js "😀😀😀", confirmPassword := js "😀😀😀" }
        = (resetOps ++ [.call .getSession], true) := by
  decide

/-- Witness of C1 at the three inputs the specification names: ("abc","abc") is too
short, ("abcdef","xyzxyz") is a mismatch, ("abcdef","abcdef") with a session reaches
the gateway and sends "abcdef". -/
theorem c1_changePassword_local_validation_witness :
    ((({ password := js "abc", confirmPassword := js "abc" } : State).run
        (handleSubmit { password := js "abc", confirmPassword := js "abc" }
          (.ok none) (.ok none))).error
        = some (js "Password must be at least 6 characters") ∧
      (({ password := js "abc", confirmPassword := js "abc" } : State).run
        (handleSubmit { password := js "abc", confirmPassword := js "abc" }
          (.ok none) (.ok none))).message = none ∧
      (({ password := js "abc", confirmPassword := js "abc" } : State).run
        (handleSubmit { password := js "abc", confirmPassword := js "abc" }
          (.ok none) (.ok none))).loading = false ∧
      (handleSubmit { password := js "abc", confirmPassword := js "abc" }
          (.ok none) (.ok none)).filter Op.isCall = []) ∧
    ((({ password := js "abcdef", confirmPassword := js "xyzxyz" } : State).run
        (handleSubmit { password := js "abcdef", confirmPassword := js "xyzxyz" }
          (.ok none) (.ok none))).error
        = some (js "Passwords do not match") ∧
      (({ password := js "abcdef", confirmPassword := js "xyzxyz" } : State).run
        (handleSubmit { password := js "abcdef", confirmPassword := js "xyzxyz" }
          (.ok none) (.ok none))).message = none ∧
      (({ password := js "abcdef", confirmPassword := js "xyzxyz" } : State).run
        (handleSubmit { password := js "abcdef", confirmPassword := js "xyzxyz" }
          (.ok none) (.ok none))).loading = false ∧
      (handleSubmit { password := js "abcdef", confirmPassword := js "xyzxyz" }
          (.ok none) (.ok none)).filter Op.isCall = []) ∧
    (Op.call .getSession ∈
        handleSubmit { password := js "abcdef", confirmPassword := js "abcdef" }
          (.ok none) (.ok none) ∧
      (handleSubmit { password := js "abcdef", confirmPassword := js "abcdef" }
          (.ok (some ⟨⟨js "u1", js "a@b.c", js "2024", js "2025"⟩, js "tok"⟩))
          (.ok none)).filter Op.isCall
        = [.call .getSession, .call (.updateUser (js "abcdef"))]) :=
  ⟨(c1_changePassword_local_validation
      { password := js "abc", confirmPassword := js "abc" } (.ok none) (.ok none)
      ⟨⟨js "u1", js "a@b.c", js "2024", js "2025"⟩, js "tok"⟩).2.1 rfl (by decide),
   (c1_changePassword_local_validation
      { password := js "abcdef", confirmPassword := js "xyzxyz" } (.ok none) (.ok none)
      ⟨⟨js "u1", js "a@b.c", js "2024", js "2025"⟩, js "tok"⟩).1 (by decide),
   (c1_changePassword_local_validation
      { password := js "abcdef", confirmPassword := js "abcdef" } (.ok none) (.ok none)
      ⟨⟨js "u1", js "a@b.c", js "2024", js "2025"⟩, js "tok"⟩).2.2 rfl (by decide)⟩

/-- C2 fails as stated: with the fields ("abc","abc") and no session, the handler
`handleSubmit` finishes with the too-short validation error, not with the
unauthenticated error, and does not even request the session. -/
theorem c2_invalid_pair_gets_validation_error :
    (({ password := js "abc", confirmPassword := js "abc" } : State).run
        (handleSubmit { password := js "abc", confirmPassword := js "abc" }
          (.ok none) (.ok none))).error
        = some (js "Password must be at least 6 characters") ∧
      (({ password := js "abc", confirmPassword := js "abc" } : State).run
        (handleSubmit { password := js "abc", confirmPassword := js "abc" }
          (.ok none) (.ok none))).error
        ≠ some (js "Please click the link from your email first") ∧
      Op.call .getSession ∉
        handleSubmit { password := js "abc", confirmPassword := js "abc" }
          (.ok none) (.ok none) := by
  decide

/-- C2, amended: when `getSession` answers with no session, `handleSubmit` never
requests `updateUser`, whatever the fields; and when the fields pass the local
validation (equal, `length` at least 6) it ends with the error "Please click the link
from your email first", the message slot `null` and `loading` false. -/
theorem c2_no_session_rejected (s : State) (updateReply : Except Thrown (Option AuthError)) :
    (handleSubmit s (.ok none) updateReply).filter Op.isUpdateUser = [] ∧
    (s.password = s.confirmPassword → 6 ≤ s.password.length →
      (s.run (handleSubmit s (.ok none) updateReply)).error
          = some (js "Please click the link from your email first") ∧
        (s.run (handleSubmit s (.ok none) updateReply)).message = none ∧
        (s.run (handleSubmit s (.ok none) updateReply)).loading = false) := by
  constructor
  · by_cases h : s.password = s.confirmPassword
    · by_cases h2 : s.password.length < 6
      · simp [handleSubmit, handleSubmit_begin_short s h h2, resetOps, Op.isUpdateUser]
      · simp [handleSubmit, handleSubmit_begin_valid s h (Nat.not_lt.mp h2), resetOps,
          handleSubmit_afterGetSession, Op.isUpdateUser]
    · simp [handleSubmit, handleSubmit_begin_mismatch s h, resetOps, Op.isUpdateUser]
  · intro h1 h2
    simp [handleSubmit, handleSubmit_begin_valid s h1 h2, resetOps,
      handleSubmit_afterGetSession, State.run, State.apply]

/-- Witness of the amended C2 at the fields ("abcdef","abcdef"). -/
theorem c2_no_session_rejected_witness :
    (({ password := js "abcdef", confirmPassword := js "abcdef" } : State).run
        (handleSubmit { password := js "abcdef", confirmPassword := js "abcdef" }
          (.ok none) (.ok none))).error
        = some (js "Please click the link from your email first") ∧
      (({ password := js "abcdef", confirmPassword := js "abcdef" } : State).run
        (handleSubmit { password := js "abcdef", confirmPassword := js "abcdef" }
          (.ok none) (.ok none))).message = none ∧
      (({ password := js "abcdef", confirmPassword := js "abcdef" } : State).run
        (handleSubmit { password := js "abcdef", confirmPassword := js "abcdef" }
          (.ok none) (.ok none))).loading = false :=
  (c2_no_session_rejected { password := js "abcdef", confirmPassword := js "abcdef" }
    (.ok none)).2 rfl (by decide)

end

section

open Auth

/-- C6: for every email, password and sub-mode, when the gateway answers `signUp` or
`signInWithPassword` with an error whose message is `m`, `handleSubmit` ends with the
error slot equal to `m`, the message slot `null`, the held session unchanged, and
makes no navigation. -/
theorem c6_auth_gateway_error_verbatim (origin : JsString) (s : State) (m : JsString) :
    (s.run (handleSubmit origin s (.ok (some ⟨m⟩)))).error = some m ∧
    (s.run (handleSubmit origin s (.ok (some ⟨m⟩)))).message = none ∧
    (s.run (handleSubmit origin s (.ok (some ⟨m⟩)))).session = s.session ∧
    (handleSubmit origin s (.ok (some ⟨m⟩))).filter Op.isNavigate = [] := by
  cases h : s.isSignUp <;>
    simp [handleSubmit, handleSubmit_begin, handleSubmit_resume, h, State.run, State.apply,
      Op.isNavigate]

end

/-- C7: each of the three submission handlers (Auth, ResetPasswordRequest,
ChangePassword), for every state of the form and every answer of the gateway
(resolved with or without an error, or rejected with a thrown value), opens with
`preventDefault, setLoading(true), setError(null), setMessage(null)`, so that both
slots are `null` before any validation result or gateway request; `loading` is false
when the handler completes; and a value found in the error or the message slot
afterwards was written by a setter call of this very submission, after the reset. -/
theorem c7_handlers_reset_then_release (origin : JsString) (a : Auth.State)
    (r : ResetPasswordRequest.State) (c : ChangePassword.State)
    (reply : Except Thrown (Option AuthError))
    (sessionReply : Except Thrown (Option Session)) (v : JsString) :
    ((Auth.handleSubmit origin a reply).take 4 = resetOps ∧
      (a.run ((Auth.handleSubmit origin a reply).take 4)).error = none ∧
      (a.run ((Auth.handleSubmit origin a reply).take 4)).message = none ∧
      (a.run (Auth.handleSubmit origin a reply)).loading = false ∧
      ((a.run (Auth.handleSubmit origin a reply)).error = some v →
        Op.setError (some v) ∈ (Auth.handleSubmit origin a reply).drop 4) ∧
      ((a.run (Auth.handleSubmit origin a reply)).message = some v →
        Op.setMessage (some v) ∈ (Auth.handleSubmit origin a reply).drop 4)) ∧
    ((ResetPasswordRequest.handleSubmit origin r reply).take 4 = resetOps ∧
      (r.run ((ResetPasswordRequest.handleSubmit origin r reply).take 4)).error = none ∧
      (r.run ((ResetPasswordRequest.handleSubmit origin r reply).take 4)).message = none ∧
      (r.run (ResetPasswordRequest.handleSubmit origin r reply)).loading = false ∧
      ((r.run (ResetPasswordRequest.handleSubmit origin r reply)).error = some v →
        Op.setError (some v) ∈ (ResetPasswordRequest.handleSubmit origin r reply).drop 4) ∧
      ((r.run (ResetPasswordRequest.handleSubmit origin r reply)).message = some v →
        Op.setMessage (some v) ∈
          (ResetPasswordRequest.handleSubmit origin r reply).drop 4)) ∧
    ((ChangePassword.handleSubmit c sessionReply reply).take 4 = resetOps ∧
      (c.run ((ChangePassword.handleSubmit c sessionReply reply).take 4)).error = none ∧
      (c.run ((ChangePassword.handleSubmit c sessionReply reply).take 4)).message = none ∧
      (c.run (ChangePassword.handleSubmit c sessionReply reply)).loading = false ∧
      ((c.run (ChangePassword.handleSubmit c sessionReply reply)).error = some v →
        Op.setError (some v) ∈ (ChangePassword.handleSubmit c sessionReply reply).drop 4) ∧
      ((c.run (ChangePassword.handleSubmit c sessionReply reply)).message = some v →
        Op.setMessage (some v) ∈
          (ChangePassword.handleSubmit c sessionReply reply).drop 4)) := by
  refine ⟨?_, ?_, ?_⟩
  · cases h : a.isSignUp <;> rcases reply with (_ | m) | (_ | e) <;>
      simp [Auth.handleSubmit, Auth.handleSubmit_begin, Auth.handleSubmit_resume, h,
        catchBlock, resetOps, Auth.State.run, Auth.State.apply] <;>
      (intro h; exact h.symm)
  · rcases reply with (_ | m) | (_ | e) <;>
      simp [ResetPasswordRequest.handleSubmit, ResetPasswordRequest.handleSubmit_begin,
        ResetPasswordRequest.handleSubmit_resume, catchBlock, resetOps,
        ResetPasswordRequest.State.run, ResetPasswordRequest.State.apply] <;>
      (intro h; exact h.symm)
  · by_cases h1 : c.password = c.confirmPassword
    · by_cases h2 : c.password.length < 6
      · simp [ChangePassword.handleSubmit, ChangePassword.handleSubmit_begin_short c h1 h2,
          resetOps, ChangePassword.State.run, ChangePassword.State.apply]
        intro h; exact h.symm
      · rcases sessionReply with (_ | m) | (_ | sess) <;>
          rcases reply with (_ | m2) | (_ | e) <;>
          simp [ChangePassword.handleSubmit,
            ChangePassword.handleSubmit_begin_valid c h1 (Nat.not_lt.mp h2),
            ChangePassword.handleSubmit_afterGetSession,
            ChangePassword.handleSubmit_afterUpdateUser, catchBlock,
            resetOps, ChangePassword.State.run, ChangePassword.State.apply] <;>
          (intro h; exact h.symm)
    · simp [ChangePassword.handleSubmit, ChangePassword.handleSubmit_begin_mismatch c h1,
        resetOps, ChangePassword.State.run, ChangePassword.State.apply]
      intro h; exact h.symm

/-- Witness of C7 at a fresh Auth view whose sign-in the gateway answers with the
error "Invalid login credentials": the text in the error slot was written after the
reset. -/
theorem c7_handlers_reset_then_release_witness :
    Op.setError (some (js "Invalid login credentials")) ∈
      (Auth.handleSubmit (js "http://localhost:5173") Auth.init
        (.ok (some ⟨js "Invalid login credentials"⟩))).drop 4 :=
  (c7_handlers_reset_then_release (js "http://localhost:5173") Auth.init
    ResetPasswordRequest.init ChangePassword.init
    (.ok (some ⟨js "Invalid login credentials"⟩)) (.ok none)
    (js "Invalid login credentials")).1.2.2.2.2.1 (by decide)

section

open ResetPasswordRequest

/-- C9 fails as stated: for the email "a@b.c", a gateway answer with the error
"User not found" leaves that text in the error slot and no success message, while a
gateway answer without error leaves the success message; the two runs end in
different notification states. -/
theorem c9_reset_request_outcome_depends_on_gateway :
    (({ email := js "a@b.c" } : State).run
        (handleSubmit (js "http://localhost:5173") { email := js "a@b.c" }
          (.ok (some ⟨js "User not found"⟩)))).message = none ∧
      (({ email := js "a@b.c" } : State).run
        (handleSubmit (js "http://localhost:5173") { email := js "a@b.c" }
          (.ok (some ⟨js "User not found"⟩)))).error = some (js "User not found") ∧
      (({ email := js "a@b.c" } : State).run
        (handleSubmit (js "http://localhost:5173") { email := js "a@b.c" }
          (.ok none))).message
        = some (js "Check your email for the password reset link!") ∧
      (({ email := js "a@b.c" } : State).run
        (handleSubmit (js "http://localhost:5173") { email := js "a@b.c" }
          (.ok (some ⟨js "User not found"⟩))))
        ≠ (({ email := js "a@b.c" } : State).run
            (handleSubmit (js "http://localhost:5173") { email := js "a@b.c" }
              (.ok none))) := by
  decide

/-- C9, amended: for every email, `handleSubmit` of the reset-request view ends with
the success message (and no error) when the gateway answers without error, and with
the gateway's error message verbatim in the error slot (and no message) when it
answers with an error; so two runs with the same email whose gateway answers differ
in that way end in different notification states. -/
theorem c9_reset_request_shows_gateway_answer (origin : JsString) (s : State)
    (e : AuthError) :
    (s.run (handleSubmit origin s (.ok none))).message
        = some (js "Check your email for the password reset link!") ∧
      (s.run (handleSubmit origin s (.ok none))).error = none ∧
      (s.run (handleSubmit origin s (.ok (some e)))).error = some e.message ∧
      (s.run (handleSubmit origin s (.ok (some e)))).message = none ∧
      s.run (handleSubmit origin s (.ok none))
        ≠ s.run (handleSubmit origin s (.ok (some e))) := by
  have h1 : (s.run (handleSubmit origin s (.ok none))).message
      = some (js "Check your email for the password reset link!") := by
    simp [handleSubmit, handleSubmit_begin, handleSubmit_resume, State.run, State.apply]
  have h2 : (s.run (handleSubmit origin s (.ok (some e)))).message = none := by
    simp [handleSubmit, handleSubmit_begin, handleSubmit_resume, State.run, State.apply]
  refine ⟨h1, ?_, ?_, h2, ?_⟩
  · simp [handleSubmit, handleSubmit_begin, handleSubmit_resume, State.run, State.apply]
  · simp [handleSubmit, handleSubmit_begin, handleSubmit_resume, State.run, State.apply]
  · intro h
    rw [h, h2] at h1
    exact Option.noConfusion h1

end

end Handlers

/-! ## Route guards -/

section Guards

section

open Auth

/-- C5: on the Auth view, the session-fetch callback and the session-change listener
navigate to "/profile" whenever they are handed a session, and make no navigation
when they are handed none; a sign-in submission that the gateway answers without
error navigates to "/profile". -/
theorem c5_auth_redirects_to_profile (origin : JsString) (s : State) (session : Session)
    (h : s.isSignUp = false) :
    Op.navigate (js "/profile") ∈ onGetSession (some session) ∧
    Op.navigate (js "/profile") ∈ onAuthStateChange (some session) ∧
    Op.navigate (js "/profile") ∈ handleSubmit origin s (.ok none) ∧
    (onGetSession none).filter Op.isNavigate = [] ∧
    (onAuthStateChange none).filter Op.isNavigate = [] := by
  simp [onGetSession, onAuthStateChange, handleSubmit, handleSubmit_begin,
    handleSubmit_resume, h, Op.isNavigate]

/-- Witness of C5 at a fresh Auth view (sign-in mode) and a concrete session. -/
theorem c5_auth_redirects_to_profile_witness :
    Op.navigate (js "/profile") ∈
        onGetSession (some ⟨⟨js "u1", js "a@b.c", js "2024", js "2025"⟩, js "tok"⟩) ∧
    Op.navigate (js "/profile") ∈
        onAuthStateChange (some ⟨⟨js "u1", js "a@b.c", js "2024", js "2025"⟩, js "tok"⟩) ∧
    Op.navigate (js "/profile") ∈ handleSubmit (js "http://localhost:5173") init (.ok none) ∧
    (onGetSession none).filter Op.isNavigate = [] ∧
    (onAuthStateChange none).filter Op.isNavigate = [] :=
  c5_auth_redirects_to_profile (js "http://localhost:5173") init
    ⟨⟨js "u1", js "a@b.c", js "2024", js "2025"⟩, js "tok"⟩ rfl

end

namespace Profile

theorem step_sessionFetched_loading (s : State) (session : Option Session) :
    (step s (.sessionFetched session)).loading = false := by
  cases session <;> simp [step, Event.ops, onGetSession, State.run, State.apply]

theorem step_keeps_loaded (s : State) (e : Event) (h : s.loading = false) :
    (step s e).loading = false := by
  cases e with
  | sessionFetched session => exact step_sessionFetched_loading s session
  | authStateChanged session =>
    cases session <;> simp [step, Event.ops, onAuthStateChange, State.run, State.apply, h]
  | logoutClicked => simp [step, Event.ops, handleLogout, State.run, State.apply, h]

theorem steps_keep_loaded (es : List Event) (s : State) (h : s.loading = false) :
    (steps s es).loading = false := by
  induction es generalizing s with
  | nil => exact h
  | cons e es ih => exact ih (step s e) (step_keeps_loaded s e h)

theorem loaded_after_fetch (pre mid : List Event) (fetched : Option Session) :
    (steps init (pre ++ [.sessionFetched fetched] ++ mid)).loading = false := by
  simp only [steps, List.foldl_append, List.foldl_cons, List.foldl_nil]
  exact steps_keep_loaded mid _ (step_sessionFetched_loading _ fetched)

end Profile

section

open Profile

/-- C3: the Profile view.  It starts in Loading (no session held, the loading screen
rendered, no user data).  From any state, a session fetch that resolves with a
session leaves the view rendering that session's user fields and makes no
navigation; a session fetch that resolves with no session navigates to "/" and
leaves the view rendering nothing.  After the fetch has resolved (whatever happened
before and since), a session-change event that reports no session navigates to "/"
and leaves the view rendering nothing.  In every state, user information is
rendered exactly when loading is over and a session is held: never while the held
session is absent. -/
theorem c3_profile_state_machine (s : State) (session : Session)
    (pre mid : List Event) (fetched : Option Session) :
    (init.session = none ∧ render init = .loadingScreen ∧
      (render init).showsUser = false) ∧
    (render (step s (.sessionFetched (some session)))
        = .userInformation session.user.email session.user.id session.user.created_at
            session.user.last_sign_in_at ∧
      (Event.sessionFetched (some session)).ops.filter Op.isNavigate = []) ∧
    (render (step s (.sessionFetched none)) = .nothing ∧
      (Event.sessionFetched none).ops.filter Op.isNavigate = [.navigate (js "/")]) ∧
    (render (step (steps init (pre ++ [.sessionFetched fetched] ++ mid))
        (.authStateChanged none)) = .nothing ∧
      (Event.authStateChanged none).ops.filter Op.isNavigate = [.navigate (js "/")]) ∧
    (render s).showsUser = (!s.loading && s.session.isSome) ∧
    (render (steps init (pre ++ mid))).showsUser
      = (!(steps init (pre ++ mid)).loading && (steps init (pre ++ mid)).session.isSome) := by
  have key : ∀ t : State, (render t).showsUser = (!t.loading && t.session.isSome) := by
    intro t
    rcases t with ⟨_ | sess, _ | _⟩ <;> simp [render, Rendered.showsUser]
  refine ⟨⟨rfl, rfl, rfl⟩, ⟨?_, ?_⟩, ⟨?_, ?_⟩, ⟨?_, ?_⟩, key s, key _⟩
  · simp [step, Event.ops, onGetSession, State.run, State.apply, render]
  · simp [Event.ops, onGetSession, Op.isNavigate]
  · simp [step, Event.ops, onGetSession, State.run, State.apply, render]
  · simp [Event.ops, onGetSession, Op.isNavigate]
  · have h := loaded_after_fetch pre mid fetched
    generalize steps init (pre ++ [.sessionFetched fetched] ++ mid) = t at h
    simp [step, Event.ops, onAuthStateChange, State.run, State.apply, render, h]
  · simp [Event.ops, onAuthStateChange, Op.isNavigate]

end

namespace ChangePassword

theorem begin_keeps_verifying (s : State) :
    (s.run (handleSubmit_begin s).1).verifying = s.verifying := by
  unfold handleSubmit_begin
  split_ifs <;> simp [State.run, State.apply]

theorem afterGetSession_keeps_verifying (s : State) (password : JsString)
    (reply : Except Thrown (Option Session)) :
    (s.run (handleSubmit_afterGetSession password reply).1).verifying = s.verifying := by
  rcases reply with (_ | m) | (_ | sess) <;>
    simp [handleSubmit_afterGetSession, catchBlock, State.run, State.apply]

theorem afterUpdateUser_keeps_verifying (s : State)
    (reply : Except Thrown (Option AuthError)) :
    (s.run (handleSubmit_afterUpdateUser reply)).verifying = s.verifying := by
  rcases reply with (_ | m) | (_ | e) <;>
    simp [handleSubmit_afterUpdateUser, catchBlock, State.run, State.apply]

theorem change_step_submitted (q : SearchParams) (sys : Sys) :
    step q sys .submitted =
      if canSubmit q sys.state then
        match handleSubmit_begin sys.state with
        | (ops, false) => { sys with state := sys.state.run ops }
        | (ops, true) =>
          { sys with state := sys.state.run ops,
                     inflight := sys.inflight ++ [.getSession sys.state.password] }
      else sys := rfl

theorem step_sessionReplied (q : SearchParams) (sys : Sys) (i : Nat)
    (reply : Except Thrown (Option Session)) :
    step q sys (.sessionReplied i reply) =
      match sys.inflight.get? i with
      | some (.getSession password) =>
        match handleSubmit_afterGetSession password reply with
        | (ops, false) =>
          { sys with state := sys.state.run ops, inflight := sys.inflight.eraseIdx i }
        | (ops, true) =>
          { sys with state := sys.state.run ops, inflight := sys.inflight.set i .updateUser }
      | _ => sys := rfl

theorem step_updateReplied (q : SearchParams) (sys : Sys) (i : Nat)
    (reply : Except Thrown (Option AuthError)) :
    step q sys (.updateReplied i reply) =
      match sys.inflight.get? i with
      | some .updateUser =>
        { sys with state := sys.state.run (handleSubmit_afterUpdateUser reply),
                   inflight := sys.inflight.eraseIdx i }
      | _ => sys := rfl

theorem step_verifyReplied (q : SearchParams) (sys : Sys)
    (reply : Except Thrown (Option AuthError)) :
    step q sys (.verifyReplied reply) =
      if sys.verifyPending then
        { sys with state := sys.state.run (onVerifyOtp reply), verifyPending := false }
      else sys := rfl

theorem step_keeps_not_verifying (q : SearchParams) (sys : Sys) (e : Event)
    (h : sys.state.verifying = false) : (step q sys e).state.verifying = false := by
  cases e with
  | passwordEdited v => simpa [step, State.run, State.apply] using h
  | confirmEdited v => simpa [step, State.run, State.apply] using h
  | submitted =>
    have hb := begin_keeps_verifying sys.state
    rw [change_step_submitted]
    split_ifs
    · rcases hp : handleSubmit_begin sys.state with ⟨ops, _ | _⟩ <;>
        simp only [hp] at hb ⊢ <;> rw [hb, h]
    · exact h
  | sessionReplied i reply =>
    rw [step_sessionReplied]
    rcases hg : sys.inflight.get? i with _ | ⟨password⟩ | _
    · simpa using h
    · have ha := afterGetSession_keeps_verifying sys.state password reply
      rcases hp : handleSubmit_afterGetSession password reply with ⟨ops, _ | _⟩ <;>
        simp only [hp] at ha ⊢ <;> rw [ha, h]
    · simpa using h
  | updateReplied i reply =>
    rw [step_updateReplied]
    rcases hg : sys.inflight.get? i with _ | ⟨password⟩ | _
    · simpa using h
    · simpa using h
    · simp only []
      rw [afterUpdateUser_keeps_verifying, h]
  | verifyReplied reply =>
    rw [step_verifyReplied]
    split_ifs
    · rcases reply with (_ | m) | (_ | e) <;>
        simp [onVerifyOtp, State.run, State.apply, h]
    · exact h
  | sessionFetched session =>
    cases session <;> cases ht : truthy q.token_hash <;>
      simp [step, onGetSession, State.run, State.apply, h, ht]
  | authStateChanged session =>
    simp [step, onAuthStateChange, State.run, State.apply, h]

theorem steps_keep_not_verifying (q : SearchParams) (es : List Event) (sys : Sys)
    (h : sys.state.verifying = false) : (steps q sys es).state.verifying = false := by
  induction es generalizing sys with
  | nil => exact h
  | cons e es ih => exact ih (step q sys e) (step_keeps_not_verifying q sys e h)

theorem mount_not_verifying (q : SearchParams) (h : truthy q.token_hash = false) :
    (mount q).state.verifying = false := by
  simp [mount, useEffect, SearchParams.hasRecoveryToken, h, State.run, State.apply, init]

end ChangePassword

section

open ChangePassword

/-- C4 fails as stated: with the query `?token_hash=abc&type=signup` the URL carries
no recovery token (line 21's test is false), yet when the session fetch resolves with
no session the view makes no navigation and renders the form. -/
theorem c4_token_hash_without_recovery_type :
    SearchParams.hasRecoveryToken
        { token_hash := some (js "abc"), type := some (js "signup") } = false ∧
      onGetSession { token_hash := some (js "abc"), type := some (js "signup") } none
        = [.setSession none] ∧
      render { token_hash := some (js "abc"), type := some (js "signup") }
          (step { token_hash := some (js "abc"), type := some (js "signup") }
            (mount { token_hash := some (js "abc"), type := some (js "signup") })
            (.sessionFetched none)).state
        = .form none none false := by
  decide

/-- C4, amended: for every URL query and every answer of the session fetch, the fetch
callback navigates, and then to "/reset-password", exactly when it is handed no
session and the URL carries no non-empty `token_hash` (its `type` is not read); it
makes no navigation when it is handed a session or a non-empty `token_hash` is
present.  When the URL carries no non-empty `token_hash`, then in every state the
mounted view can reach, a fetch that resolves with no session leaves the view
rendering nothing. -/
theorem c4_change_password_redirect (q : SearchParams) (session : Option Session)
    (es : List Event) :
    ((onGetSession q session).filter Op.isNavigate
        = if !session.isSome && !truthy q.token_hash then [.navigate (js "/reset-password")]
          else []) ∧
    (truthy q.token_hash = false →
      render q (step q (steps q (mount q) es) (.sessionFetched none)).state = .nothing) := by
  constructor
  · cases session <;> cases ht : truthy q.token_hash <;>
      simp [onGetSession, ht, Op.isNavigate]
  · intro ht
    have hv := steps_keep_not_verifying q es (mount q) (mount_not_verifying q ht)
    have hv2 := step_keeps_not_verifying q _ (.sessionFetched none) hv
    have hs : (step q (steps q (mount q) es) (.sessionFetched none)).state.session = none := by
      simp [step, onGetSession, State.run, State.apply, ht]
    simp [render, hv2, hs, ht]

/-- Witness of the amended C4 at the bare URL `/update-password`. -/
theorem c4_change_password_redirect_witness :
    render {} (step {} (steps {} (mount {}) []) (.sessionFetched none)).state = .nothing :=
  (c4_change_password_redirect {} none []).2 rfl

end

section

open Profile

/-- Remark on C3: a session-change event with no session that arrives while the
fetch is still pending navigates to "/" as well, and the loading screen stays up. -/
theorem profile_change_before_fetch :
    render (step init (.authStateChanged none)) = .loadingScreen ∧
      (Event.authStateChanged none).ops = [.setSession none, .navigate (js "/")] := by
  decide

end

/-! ## Unmounting before the session fetch resolves -/

/-- C8 fails as stated: when the Profile view unmounts while its session fetch is
pending and the fetch then resolves with no session, the fetch callback still runs:
it calls `setSession(null)`, `setLoading(false)` and `navigate("/")`.  Likewise the
Auth view still navigates to "/profile" when the fetch resolves with a session. -/
theorem c8_fetch_callback_runs_after_unmount :
    (deliver .profile (deliver .profile {} .unmount).1 (.fetchResolved none)).2
        = [.setSession none, .setLoading false, .navigate (js "/")] ∧
      (deliver .auth (deliver .auth {} .unmount).1
          (.fetchResolved (some ⟨⟨js "u1", js "a@b.c", js "2024", js "2025"⟩, js "tok"⟩))).2
        = [.setSession (some ⟨⟨js "u1", js "a@b.c", js "2024", js "2025"⟩, js "tok"⟩),
            .navigate (js "/profile")] := by
  decide

theorem deliver_keeps_unsubscribed (v : View) (sub : Subscription) (e : LifeEvent)
    (h : sub.subscribed = false) : (deliver v sub e).1.subscribed = false := by
  cases e with
  | fetchResolved session => unfold deliver; split_ifs <;> simp [h]
  | sessionChanged session => simp [deliver, h]
  | unmount => simp [deliver]

theorem deliverAll_keeps_unsubscribed (v : View) (es : List LifeEvent) (sub : Subscription)
    (h : sub.subscribed = false) : (deliverAll v sub es).subscribed = false := by
  induction es generalizing sub with
  | nil => exact h
  | cons e es ih => exact ih _ (deliver_keeps_unsubscribed v sub e h)

/-- C8, amended: for each of the four subscribing views (Home, Auth, Profile,
ChangePassword), once the view has unmounted its session-change listener never runs
again, whatever events follow; the callback of the initial session fetch is not
cancelled by the unmount: when the fetch resolves it makes exactly the calls it
makes on a mounted view, and these include `setSession` with the fetched session. -/
theorem c8_unmount_releases_listener_only (v : View) (sub : Subscription)
    (es : List LifeEvent) (session : Option Session) :
    (deliver v (deliverAll v (deliver v sub .unmount).1 es) (.sessionChanged session)).2 = [] ∧
    (deliver v (deliver v sub .unmount).1 (.fetchResolved session)).2
      = (deliver v sub (.fetchResolved session)).2 ∧
    (deliver v (deliver v { sub with fetchPending := true } .unmount).1
        (.fetchResolved session)).2 = v.onGetSession session ∧
    Op.setSession session ∈ v.onGetSession session := by
  refine ⟨?_, ?_, ?_, ?_⟩
  · have h := deliverAll_keeps_unsubscribed v es (deliver v sub .unmount).1 rfl
    generalize deliverAll v (deliver v sub .unmount).1 es = t at h
    simp [deliver, h]
  · cases hp : sub.fetchPending <;> simp [deliver, hp]
  · simp [deliver]
  · cases v <;>
      simp [View.onGetSession, Home.onGetSession, Auth.onGetSession, Profile.onGetSession,
        ChangePassword.onGetSession]

end Guards

/-! ## Single-slot notification -/

section Notification

namespace Auth

theorem auth_run_begin (origin : JsString) (s : State) :
    (s.run (handleSubmit_begin origin s)).loading = true ∧
      (s.run (handleSubmit_begin origin s)).error = none ∧
      (s.run (handleSubmit_begin origin s)).message = none := by
  cases h : s.isSignUp <;> simp [handleSubmit_begin, h, State.run, State.apply]

theorem auth_run_resume (s : State) (b : Bool) (reply : Except Thrown (Option AuthError))
    (he : s.error = none) (hm : s.message = none) :
    (s.run (handleSubmit_resume b reply)).error = none ∨
      (s.run (handleSubmit_resume b reply)).message = none := by
  cases b <;> rcases reply with (_ | m) | (_ | e) <;>
    simp [handleSubmit_resume, catchBlock, State.run, State.apply, he, hm]

theorem auth_step_submitted (origin : JsString) (sys : Sys) :
    step origin sys .submitted =
      if sys.state.loading then sys
      else
        { state := sys.state.run (handleSubmit_begin origin sys.state),
          inflight := sys.inflight ++ [sys.state.isSignUp] } := rfl

theorem auth_step_gatewayReplied (origin : JsString) (sys : Sys) (i : Nat)
    (reply : Except Thrown (Option AuthError)) :
    step origin sys (.gatewayReplied i reply) =
      match sys.inflight.get? i with
      | none => sys
      | some isSignUp =>
        { state := sys.state.run (handleSubmit_resume isSignUp reply),
          inflight := sys.inflight.eraseIdx i } := rfl

theorem auth_inv_step (origin : JsString) (sys : Sys) (e : Event) (h : Inv sys) :
    Inv (step origin sys e) := by
  cases e with
  | emailEdited v => simpa [Inv, step, State.run, State.apply] using h
  | passwordEdited v => simpa [Inv, step, State.run, State.apply] using h
  | modeClicked b =>
    rcases h with ⟨h1, _⟩ | ⟨p, h1, h2, _, _⟩
    · left; simp [step, clickMode, State.run, State.apply, h1]
    · right; exact ⟨p, by simp [step, clickMode, State.run, State.apply, h1, h2]⟩
  | submitted =>
    rw [auth_step_submitted]
    split_ifs with hl
    · exact h
    · rcases h with ⟨h1, _⟩ | ⟨p, _, h2, _, _⟩
      · right
        obtain ⟨a, b, c⟩ := auth_run_begin origin sys.state
        exact ⟨sys.state.isSignUp, by simp [h1], a, b, c⟩
      · exact absurd h2 hl
  | gatewayReplied i reply =>
    rw [auth_step_gatewayReplied]
    rcases h with ⟨h1, h2⟩ | ⟨p, h1, _, h3, h4⟩
    · simp only [h1, List.get?_nil]
      exact Or.inl ⟨h1, h2⟩
    · cases i with
      | zero =>
        simp only [h1, List.get?_cons_zero, List.eraseIdx_cons_zero]
        exact Or.inl ⟨rfl, auth_run_resume sys.state p reply h3 h4⟩
      | succ n =>
        simp only [h1, List.get?_cons_succ, List.get?_nil]
        exact Or.inr ⟨p, h1, ‹_›, h3, h4⟩
  | sessionFetched session =>
    cases session <;> simpa [Inv, step, onGetSession, State.run, State.apply] using h
  | authStateChanged session =>
    cases session <;> simpa [Inv, step, onAuthStateChange, State.run, State.apply] using h
  | logoutClicked => simpa [Inv, step, handleLogout, State.run, State.apply] using h

theorem auth_inv_steps (origin : JsString) (es : List Event) (sys : Sys) (h : Inv sys) :
    Inv (steps origin sys es) := by
  induction es generalizing sys with
  | nil => exact h
  | cons e es ih => exact ih _ (auth_inv_step origin sys e h)

theorem auth_inv_slots (sys : Sys) (h : Inv sys) :
    sys.state.error = none ∨ sys.state.message = none := by
  rcases h with ⟨_, h⟩ | ⟨_, _, _, h, _⟩
  · exact h
  · exact Or.inl h

end Auth

namespace ResetPasswordRequest

theorem reset_run_begin (origin : JsString) (s : State) :
    (s.run (handleSubmit_begin origin s)).loading = true ∧
      (s.run (handleSubmit_begin origin s)).error = none ∧
      (s.run (handleSubmit_begin origin s)).message = none := by
  simp [handleSubmit_begin, State.run, State.apply]

theorem reset_run_resume (s : State) (reply : Except Thrown (Option AuthError))
    (he : s.error = none) (hm : s.message = none) :
    (s.run (handleSubmit_resume reply)).error = none ∨
      (s.run (handleSubmit_resume reply)).message = none := by
  rcases reply with (_ | m) | (_ | e) <;>
    simp [handleSubmit_resume, catchBlock, State.run, State.apply, he, hm]

theorem reset_step_submitted (origin : JsString) (sys : Sys) :
    step origin sys .submitted =
      if sys.state.loading then sys
      else
        { state := sys.state.run (handleSubmit_begin origin sys.state),
          inflight := sys.inflight + 1 } := rfl

theorem reset_step_gatewayReplied (origin : JsString) (sys : Sys)
    (reply : Except Thrown (Option AuthError)) :
    step origin sys (.gatewayReplied reply) =
      if sys.inflight = 0 then sys
      else
        { state := sys.state.run (handleSubmit_resume reply),
          inflight := sys.inflight - 1 } := rfl

theorem reset_inv_step (origin : JsString) (sys : Sys) (e : Event) (h : Inv sys) :
    Inv (step origin sys e) := by
  cases e with
  | emailEdited v => simpa [Inv, step, State.run, State.apply] using h
  | submitted =>
    rw [reset_step_submitted]
    split_ifs with hl
    · exact h
    · rcases h with ⟨h1, _⟩ | ⟨_, h2, _, _⟩
      · right
        obtain ⟨a, b, c⟩ := reset_run_begin origin sys.state
        exact ⟨by simp [h1], a, b, c⟩
      · exact absurd h2 hl
  | gatewayReplied reply =>
    rw [reset_step_gatewayReplied]
    split_ifs with h0
    · exact h
    · rcases h with ⟨h1, _⟩ | ⟨h1, _, h3, h4⟩
      · exact absurd h1 h0
      · exact Or.inl ⟨by simp [h1], reset_run_resume sys.state reply h3 h4⟩

theorem reset_inv_steps (origin : JsString) (es : List Event) (sys : Sys) (h : Inv sys) :
    Inv (steps origin sys es) := by
  induction es generalizing sys with
  | nil => exact h
  | cons e es ih => exact ih _ (reset_inv_step origin sys e h)

theorem reset_inv_slots (sys : Sys) (h : Inv sys) :
    sys.state.error = none ∨ sys.state.message = none := by
  rcases h with ⟨_, h⟩ | ⟨_, _, h, _⟩
  · exact h
  · exact Or.inl h

end ResetPasswordRequest

namespace ChangePassword

theorem change_run_begin (s : State) :
    ((handleSubmit_begin s).2 = false →
      ((s.run (handleSubmit_begin s).1).error = none ∨
        (s.run (handleSubmit_begin s).1).message = none)) ∧
    ((handleSubmit_begin s).2 = true →
      (s.run (handleSubmit_begin s).1).loading = true ∧
        (s.run (handleSubmit_begin s).1).error = none ∧
        (s.run (handleSubmit_begin s).1).message = none) := by
  unfold handleSubmit_begin
  split_ifs <;> simp [State.run, State.apply]

theorem run_afterGetSession (s : State) (password : JsString)
    (reply : Except Thrown (Option Session)) (hl : s.loading = true)
    (he : s.error = none) (hm : s.message = none) :
    ((handleSubmit_afterGetSession password reply).2 = false →
      ((s.run (handleSubmit_afterGetSession password reply).1).error = none ∨
        (s.run (handleSubmit_afterGetSession password reply).1).message = none)) ∧
    ((handleSubmit_afterGetSession password reply).2 = true →
      (s.run (handleSubmit_afterGetSession password reply).1).loading = true ∧
        (s.run (handleSubmit_afterGetSession password reply).1).error = none ∧
        (s.run (handleSubmit_afterGetSession password reply).1).message = none) := by
  rcases reply with (_ | m) | (_ | sess) <;>
    simp [handleSubmit_afterGetSession, catchBlock, State.run, State.apply, hl, he, hm]

theorem run_afterUpdateUser (s : State) (reply : Except Thrown (Option AuthError))
    (he : s.error = none) (hm : s.message = none) :
    (s.run (handleSubmit_afterUpdateUser reply)).error = none ∨
      (s.run (handleSubmit_afterUpdateUser reply)).message = none := by
  rcases reply with (_ | m) | (_ | e) <;>
    simp [handleSubmit_afterUpdateUser, catchBlock, State.run, State.apply, he, hm]

theorem run_onVerifyOtp (s : State) (reply : Except Thrown (Option AuthError))
    (hm : s.message = none) : (s.run (onVerifyOtp reply)).message = none := by
  rcases reply with (_ | m) | (_ | e) <;>
    simp [onVerifyOtp, State.run, State.apply, hm]

theorem canSubmit_not_verifying (q : SearchParams) (s : State) (h : canSubmit q s = true) :
    s.verifying = false ∧ s.loading = false := by
  unfold canSubmit render at h
  split_ifs at h
  all_goals simp_all

theorem change_inv_not_pending (sys : Sys) (h : Inv sys) (hv : sys.state.verifying = false) :
    sys.verifyPending = false := by
  cases hp : sys.verifyPending with
  | false => rfl
  | true =>
    have := (h.1 hp).1
    rw [hv] at this
    exact Bool.noConfusion this

theorem change_inv_of_idle (sys : Sys) (hp : sys.verifyPending = false) (hi : sys.inflight = [])
    (hs : sys.state.error = none ∨ sys.state.message = none) : Inv sys :=
  ⟨fun h => Bool.noConfusion (hp.symm.trans h), Or.inl ⟨hi, hs⟩⟩

theorem change_inv_of_busy (sys : Sys) (hp : sys.verifyPending = false) (p : Pending)
    (hi : sys.inflight = [p]) (hl : sys.state.loading = true) (he : sys.state.error = none)
    (hm : sys.state.message = none) : Inv sys :=
  ⟨fun h => Bool.noConfusion (hp.symm.trans h), Or.inr ⟨p, hi, hl, he, hm⟩⟩

theorem pending_of_get (sys : Sys) (h : Inv sys) (i : Nat) (p : Pending)
    (hg : sys.inflight.get? i = some p) :
    sys.verifyPending = false ∧ i = 0 ∧ sys.inflight = [p] ∧ sys.state.loading = true ∧
      sys.state.error = none ∧ sys.state.message = none := by
  obtain ⟨hv, hs⟩ := h
  rcases hs with ⟨h1, _⟩ | ⟨p0, h1, h2, h3, h4⟩
  · rw [h1] at hg
    simp at hg
  · have hvp : sys.verifyPending = false := by
      cases hp : sys.verifyPending with
      | false => rfl
      | true =>
        have := (hv hp).2.1
        rw [h1] at this
        exact List.noConfusion this
    cases i with
    | zero =>
      rw [h1] at hg
      simp at hg
      subst hg
      exact ⟨hvp, rfl, h1, h2, h3, h4⟩
    | succ n =>
      rw [h1] at hg
      simp at hg

theorem change_inv_step (q : SearchParams) (sys : Sys) (e : Event) (h : Inv sys) :
    Inv (step q sys e) := by
  cases e with
  | passwordEdited v => simpa [Inv, step, State.run, State.apply] using h
  | confirmEdited v => simpa [Inv, step, State.run, State.apply] using h
  | submitted =>
    rw [change_step_submitted]
    split_ifs with hc
    · obtain ⟨hnv, hnl⟩ := canSubmit_not_verifying q sys.state hc
      have hvp := change_inv_not_pending sys h hnv
      have hi : sys.inflight = [] := by
        rcases h.2 with ⟨h1, _⟩ | ⟨_, _, h2, _, _⟩
        · exact h1
        · rw [hnl] at h2
          exact Bool.noConfusion h2
      have rb := change_run_begin sys.state
      rcases hb : handleSubmit_begin sys.state with ⟨ops, _ | _⟩
      · rw [hb] at rb
        exact change_inv_of_idle _ hvp hi (rb.1 rfl)
      · rw [hb] at rb
        obtain ⟨a, b, c⟩ := rb.2 rfl
        exact change_inv_of_busy _ hvp (.getSession sys.state.password) (by simp [hi]) a b c
    · exact h
  | sessionReplied i reply =>
    rw [step_sessionReplied]
    rcases hg : sys.inflight.get? i with _ | ⟨password⟩ | _
    · exact h
    · obtain ⟨hvp, hi0, hi, hl, he, hm⟩ := pending_of_get sys h i _ hg
      subst hi0
      have ra := run_afterGetSession sys.state password reply hl he hm
      dsimp only
      rcases ha : handleSubmit_afterGetSession password reply with ⟨ops, _ | _⟩
      · rw [ha] at ra
        exact change_inv_of_idle _ hvp (by simp [hi]) (ra.1 rfl)
      · rw [ha] at ra
        obtain ⟨a, b, c⟩ := ra.2 rfl
        exact change_inv_of_busy _ hvp .updateUser (by simp [hi]) a b c
    · exact h
  | updateReplied i reply =>
    rw [step_updateReplied]
    rcases hg : sys.inflight.get? i with _ | ⟨password⟩ | _
    · exact h
    · exact h
    · obtain ⟨hvp, hi0, hi, hl, he, hm⟩ := pending_of_get sys h i _ hg
      subst hi0
      dsimp only
      exact change_inv_of_idle _ hvp (by simp [hi]) (run_afterUpdateUser sys.state reply he hm)
  | verifyReplied reply =>
    rw [step_verifyReplied]
    split_ifs with hp
    · obtain ⟨_, hi, _, hm⟩ := h.1 hp
      exact change_inv_of_idle _ rfl hi (Or.inr (run_onVerifyOtp sys.state reply hm))
    · exact h
  | sessionFetched session =>
    cases session <;> cases ht : truthy q.token_hash <;>
      simpa [Inv, step, onGetSession, State.run, State.apply, ht] using h
  | authStateChanged session =>
    simpa [Inv, step, onAuthStateChange, State.run, State.apply] using h

theorem change_inv_steps (q : SearchParams) (es : List Event) (sys : Sys) (h : Inv sys) :
    Inv (steps q sys es) := by
  induction es generalizing sys with
  | nil => exact h
  | cons e es ih => exact ih _ (change_inv_step q sys e h)

theorem change_inv_mount (q : SearchParams) : Inv (mount q) := by
  cases h : q.hasRecoveryToken <;>
    simp [Inv, mount, useEffect, h, State.run, State.apply, init]

theorem change_inv_slots (sys : Sys) (h : Inv sys) :
    sys.state.error = none ∨ sys.state.message = none := by
  rcases h.2 with ⟨_, h⟩ | ⟨_, _, _, h, _⟩
  · exact h
  · exact Or.inl h

end ChangePassword

/-- C10: the notification of a view is single-slot.  In every state the Auth, the
ResetPasswordRequest and the ChangePassword view can reach from their mount, under
any sequence of field edits, mode toggles, submissions (possible only while the
submit button is enabled and, for ChangePassword, the form is on screen), gateway
answers, recovery-token verification results and session events, the error slot and
the message slot are never both filled. -/
theorem c10_notification_single_slot (origin : JsString) (q : ChangePassword.SearchParams)
    (ea : List Auth.Event) (er : List ResetPasswordRequest.Event)
    (ec : List ChangePassword.Event) :
    ((Auth.steps origin {} ea).state.error = none ∨
      (Auth.steps origin {} ea).state.message = none) ∧
    ((ResetPasswordRequest.steps origin {} er).state.error = none ∨
      (ResetPasswordRequest.steps origin {} er).state.message = none) ∧
    ((ChangePassword.steps q (ChangePassword.mount q) ec).state.error = none ∨
      (ChangePassword.steps q (ChangePassword.mount q) ec).state.message = none) :=
  ⟨Auth.auth_inv_slots _ (Auth.auth_inv_steps origin ea {} (Or.inl ⟨rfl, Or.inl rfl⟩)),
   ResetPasswordRequest.reset_inv_slots _
     (ResetPasswordRequest.reset_inv_steps origin er {} (Or.inl ⟨rfl, Or.inl rfl⟩)),
   ChangePassword.change_inv_slots _
     (ChangePassword.change_inv_steps q ec _ (ChangePassword.change_inv_mount q))⟩

/-- Remark on C10: both slots are reachable, one at a time.  On the Auth view a
sign-up answered without error fills the message slot, a sign-in answered with an
error fills the error slot. -/
theorem auth_slots_reachable :
    (Auth.steps (js "http://localhost:5173") {}
        [.modeClicked true, .submitted, .gatewayReplied 0 (.ok none)]).state.message
        = some (js "Check your email for the confirmation link!") ∧
      (Auth.steps (js "http://localhost:5173") {}
        [.submitted, .gatewayReplied 0 (.ok (some ⟨js "Invalid login credentials"⟩))]).state.error
        = some (js "Invalid login credentials") := by
  decide

end Notification

end SupabaseAuth
